import Mathlib

/-!
Verification of the ST_API_LIB Google Apps Script library (session-managing
client for the ServiceTrade API).

The embedding models the Apps Script environment explicitly:

* Script properties (the credential store) become an `AuthState` record with
  the `SESSION_COOKIES` and `SESSION_EXPIRATION` entries and the list of
  installed time-based triggers.
* Wall-clock time (`new Date()`) is passed in as a rational number of
  milliseconds; `Date` expiration values stored as ISO strings are modelled
  by the timestamp itself (ISO serialisation and parsing round-trip).
* `UrlFetchApp.fetch` responses are oracle parameters: the transport status
  code (and for login, the `Set-Cookie` header value).  Each operation
  additionally reports how many fetches it performed, or the list of
  requests it issued, so that claims about "no network call" are statable.
* JavaScript numbers carried by `timeoutLength` are modelled as rationals,
  which is enough to express the `Number.isInteger` check faithfully.
* JavaScript strings flowing through `encodeURIComponent` are modelled by
  their UTF-8 byte sequences (`List Nat`, each entry below 256), since the
  builtin percent-encodes bytes of the UTF-8 encoding.
-/

namespace STLIB

/-! ## Byte strings and `encodeURIComponent` (from STLIB.js getCompanies) -/

/-- A JavaScript string viewed as its UTF-8 byte sequence. -/
abbrev ByteStr := List Nat

/-- Bytes of an ASCII Lean string literal; for ASCII this agrees with UTF-8. -/
def asciiBytes (s : String) : ByteStr := s.data.map Char.toNat

/-- The bytes `encodeURIComponent` leaves unescaped:
alphanumerics and `- _ . ! ~ * ( )` together with the apostrophe (39). -/
def isUnreservedByte (b : Nat) : Bool :=
  (48 ≤ b && b ≤ 57) || (65 ≤ b && b ≤ 90) || (97 ≤ b && b ≤ 122) ||
  b == 45 || b == 95 || b == 46 || b == 33 || b == 126 ||
  b == 42 || b == 39 || b == 40 || b == 41

/-- Uppercase hexadecimal digit, as emitted by `encodeURIComponent`. -/
def hexDigitChar (n : Nat) : Char :=
  if n < 10 then Char.ofNat (48 + n) else Char.ofNat (55 + n)

/-- Percent-encoding of a single byte. -/
def encodeByte (b : Nat) : List Char :=
  if isUnreservedByte b then [Char.ofNat b]
  else ['%', hexDigitChar (b / 16), hexDigitChar (b % 16)]

/-- The JavaScript builtin `encodeURIComponent`, over the UTF-8 bytes. -/
def encodeURIComponent : ByteStr → List Char
  | [] => []
  | b :: bs => encodeByte b ++ encodeURIComponent bs

/-- Value of a hexadecimal digit character (0 on a non-digit). -/
def hexVal (c : Char) : Nat :=
  if 48 ≤ c.toNat ∧ c.toNat ≤ 57 then c.toNat - 48
  else if 65 ≤ c.toNat ∧ c.toNat ≤ 70 then c.toNat - 55
  else if 97 ≤ c.toNat ∧ c.toNat ≤ 102 then c.toNat - 87
  else 0

/-- Modelled from the spec: percent-decoding, the inverse direction of
`encodeURIComponent` (the repository has no decoder; the spec round-trip
property requires one: "splitting on & and = and percent-decoding"). -/
def percentDecode : List Char → ByteStr
  | [] => []
  | '%' :: h :: l :: rest2 => (16 * hexVal h + hexVal l) :: percentDecode rest2
  | c :: rest => c.toNat :: percentDecode rest

/-- `Array.prototype.join(sep)` on a list of chunks. -/
def joinSep (sep : Char) : List (List Char) → List Char
  | [] => []
  | [x] => x
  | x :: xs => x ++ sep :: joinSep sep xs

/-- Helper for splitting: first chunk before `sep`, and the later chunks. -/
def splitSepAux (sep : Char) : List Char → List Char × List (List Char)
  | [] => ([], [])
  | c :: cs =>
    let r := splitSepAux sep cs
    if c = sep then ([], r.1 :: r.2) else (c :: r.1, r.2)

/-- Modelled from the spec: `String.prototype.split(sep)` used by the
decoding direction of the round-trip property. -/
def splitSep (sep : Char) (l : List Char) : List (List Char) :=
  (splitSepAux sep l).1 :: (splitSepAux sep l).2

/-- Query string built by STLIB.js getCompanies from the final parameter map:
`Object.keys(finalParams).map(key => enc(key)=enc(value)).join(&)`. -/
def buildQuery (ps : List (ByteStr × ByteStr)) : List Char :=
  joinSep '&' (ps.map fun p => encodeURIComponent p.1 ++ '=' :: encodeURIComponent p.2)

/-- Modelled from the spec: decoding one `key=value` chunk. -/
def parsePair (chunk : List Char) : ByteStr × ByteStr :=
  match splitSep '=' chunk with
  | [k, v] => (percentDecode k, percentDecode v)
  | _ => (percentDecode chunk, [])

/-- Modelled from the spec: full query-string decoder (split on `&`, split
each chunk on `=`, percent-decode both sides; the empty query decodes to
the empty map). -/
def qsDecode (s : List Char) : List (ByteStr × ByteStr) :=
  if s = [] then [] else (splitSep '&' s).map parsePair

/-! ## The script-property store, triggers, and the session manager (auth.js) -/

/-- A time-based trigger installed with `ScriptApp.newTrigger`, identified by
its handler function name; the chosen firing interval is in minutes. -/
structure Trigger where
  handler : String
  intervalMinutes : Rat
deriving DecidableEq

/-- Script properties (`SESSION_COOKIES`, `SESSION_EXPIRATION`) plus the
project triggers.  Expiration timestamps are rationals in milliseconds. -/
structure AuthState where
  cookies : Option String
  expiration : Option Rat
  triggers : List Trigger
deriving DecidableEq

/-- JavaScript truthiness of a `getProperty` result: `null` and the empty
string are falsy. -/
def truthy : Option String → Bool
  | none => false
  | some s => !(s == "")

/-- `Number.isInteger` on a rational-modelled JavaScript number. -/
def jsIsInteger (q : Rat) : Prop := q.den = 1

instance (q : Rat) : Decidable (jsIsInteger q) := by unfold jsIsInteger; infer_instance

/-- The `allowedMinuteIntervals` array in auth.js login. -/
def allowedMinuteIntervals : List Rat := [1, 5, 10, 15, 30]

/-- Milliseconds per minute, used to turn `Date.setMinutes` advances into
timestamp arithmetic. -/
def msPerMinute : Rat := 60000

/-- `_deleteExistingTriggers`: removes every trigger whose handler is the
given function name. -/
def _deleteExistingTriggers (functionName : String) (s : AuthState) : AuthState :=
  { s with triggers := s.triggers.filter (fun t => !(t.handler == functionName)) }

/-- The minute-interval ladder of `_createSessionCheckTrigger`: the chain of
`if` statements selects the closest allowable minute interval. -/
def chooseMinuteInterval (frequency : Rat) : Rat :=
  if frequency ≤ 1 then 1
  else if frequency ≤ 5 then 5
  else if frequency ≤ 10 then 10
  else if frequency ≤ 15 then 15
  else 30

/-- `_createSessionCheckTrigger`: deletes any existing trigger named
`librarySessionCheckTrigger` and installs a fresh one.  `login` validates
`unit` before calling, so only the minutes and hours branches are reachable;
the hours branch calls `everyHours(frequency)`. -/
def _createSessionCheckTrigger (frequency : Rat) (unit : String) (s : AuthState) : AuthState :=
  let s1 := _deleteExistingTriggers "librarySessionCheckTrigger" s
  let interval := if unit = "minutes" then chooseMinuteInterval frequency else frequency * 60
  { s1 with triggers :=
      s1.triggers ++ [{ handler := "librarySessionCheckTrigger", intervalMinutes := interval }] }

/-- `_setSessionTimeout`: writes `SESSION_EXPIRATION := now + duration`,
where the duration is `timeoutLength` minutes or `timeoutLength * 60`
minutes; throws on any other unit. -/
def _setSessionTimeout (timeoutLength : Rat) (unit : String) (now : Rat)
    (s : AuthState) : Except String AuthState :=
  if unit ≠ "minutes" ∧ unit ≠ "hours" then
    Except.error "Invalid unit provided. Use \x27minutes\x27 or \x27hours\x27."
  else
    let expiration :=
      if unit = "minutes" then now + timeoutLength * msPerMinute
      else now + timeoutLength * 60 * msPerMinute
    Except.ok { s with expiration := some expiration }

/-- The expiration timestamp `_setSessionTimeout` computes for a valid unit:
`now` advanced by the timeout duration in milliseconds. -/
def sessionExpirationAt (timeoutLength : Rat) (unit : String) (now : Rat) : Rat :=
  if unit = "minutes" then now + timeoutLength * msPerMinute
  else now + timeoutLength * 60 * msPerMinute

/-- The constraint table of login: hours with a positive whole number, or
minutes with one of the allowed trigger intervals. -/
def validTimeoutPair (timeoutLength : Rat) (unit : String) : Prop :=
  (unit = "hours" ∧ jsIsInteger timeoutLength ∧ 1 ≤ timeoutLength) ∨
  (unit = "minutes" ∧ timeoutLength ∈ allowedMinuteIntervals)

/-- Outcome of a `login` call: either a thrown validation error or the
returned `{success, message}` object. -/
inductive LoginOutcome where
  | threw (msg : String)
  | returned (success : Bool) (message : Option String)
deriving DecidableEq

/-- Whether a login outcome is a thrown exception. -/
def LoginOutcome.isThrown : LoginOutcome → Bool
  | .threw _ => true
  | .returned _ _ => false

/-- Whether a state still carries the session-check trigger registration. -/
def hasSessionCheckTrigger (s : AuthState) : Bool :=
  s.triggers.any (fun t => t.handler == "librarySessionCheckTrigger")

/-- The part of `login` after the validation guard clause: one fetch; on a
non-200 status returns the failure object, otherwise stores the cookies,
sets the timeout and the trigger, and returns success.  The third component
counts the fetches performed. -/
def loginAfterValidation (timeoutLength : Rat) (unit : String) (now : Rat)
    (responseCode : Nat) (setCookieHeader : String) (s : AuthState) :
    LoginOutcome × AuthState × Nat :=
  if responseCode ≠ 200 then
    (LoginOutcome.returned false (some "Invalid login credentials"), s, 1)
  else
    let s1 := { s with cookies := some setCookieHeader }
    match _setSessionTimeout timeoutLength unit now s1 with
    | Except.error m => (LoginOutcome.threw m, s1, 1)
    | Except.ok s2 =>
        (LoginOutcome.returned true none, _createSessionCheckTrigger timeoutLength unit s2, 1)

/-- `login` from auth.js.  `now` models `new Date()`, `responseCode` and
`setCookieHeader` the `UrlFetchApp.fetch` response.  The third component
counts the fetches performed (0 when validation throws first). -/
def login (timeoutLength : Rat) (unit : String) (now : Rat)
    (responseCode : Nat) (setCookieHeader : String) (s : AuthState) :
    LoginOutcome × AuthState × Nat :=
  if unit = "hours" then
    if ¬ jsIsInteger timeoutLength ∨ timeoutLength < 1 then
      (LoginOutcome.threw
        "Invalid timeout length for hours. Use a whole number (e.g., 1, 2, etc.)", s, 0)
    else loginAfterValidation timeoutLength unit now responseCode setCookieHeader s
  else if unit = "minutes" then
    if timeoutLength ∉ allowedMinuteIntervals then
      (LoginOutcome.threw
        "Invalid timeout length for minutes. Use one of the following values: 1, 5, 10, 15, 30",
        s, 0)
    else loginAfterValidation timeoutLength unit now responseCode setCookieHeader s
  else
    (LoginOutcome.threw "Invalid unit provided. Use \x27hours\x27 or \x27minutes\x27.", s, 0)

/-- `logout` from auth.js: with truthy stored cookies it issues one DELETE
fetch, deletes both properties, removes the session-check trigger and
reports success exactly on status 204; otherwise it does nothing. -/
def logout (responseCode : Nat) (s : AuthState) : String × AuthState × Nat :=
  if truthy s.cookies then
    let s1 := _deleteExistingTriggers "librarySessionCheckTrigger"
                { s with cookies := none, expiration := none }
    ((if responseCode = 204 then "Logout successful" else "Logout failed"), s1, 1)
  else
    ("No active session to log out from.", s, 0)

/-- `isUserLoggedIn` from auth.js: false without truthy cookies; with a
stored expiration strictly before `now` it auto-logs out (one fetch, via
`logout`) and returns false; otherwise true. -/
def isUserLoggedIn (now : Rat) (logoutResponseCode : Nat) (s : AuthState) :
    Bool × AuthState × Nat :=
  if truthy s.cookies then
    match s.expiration with
    | some expirationDate =>
        if expirationDate < now then
          let r := logout logoutResponseCode s
          (false, r.2.1, r.2.2)
        else (true, s, 0)
    | none => (true, s, 0)
  else (false, s, 0)

/-! ## getCompanies (STLIB.js) -/

/-- The `typeDefaults` map of getCompanies, looked up at a type value;
an unknown type yields no flag (merged as the empty object). -/
def typeDefaults (t : ByteStr) : List (ByteStr × ByteStr) :=
  if t = asciiBytes "vendor" then [(asciiBytes "isVendor", asciiBytes "true")]
  else if t = asciiBytes "customer" then [(asciiBytes "isCustomer", asciiBytes "true")]
  else if t = asciiBytes "contractor" then [(asciiBytes "isContractor", asciiBytes "true")]
  else if t = asciiBytes "contractee" then [(asciiBytes "isContractee", asciiBytes "true")]
  else []

/-- `if (type && typeDefaults[type])`: the type key must be present, truthy
(nonempty) and recognised; otherwise `typeParams` stays empty. -/
def typeParams : Option ByteStr → List (ByteStr × ByteStr)
  | none => []
  | some t => if t = [] then [] else typeDefaults t

/-- JavaScript object spread `{...a, ...b}` on the modelled key/value lists:
keys of `a` first (values overridden by `b` where both occur), then the keys
only in `b`, in order. -/
def jsSpreadMerge (a b : List (ByteStr × ByteStr)) : List (ByteStr × ByteStr) :=
  (a.map fun p =>
    match b.find? (fun q => q.1 == p.1) with
    | some q => (p.1, q.2)
    | none => p) ++
  b.filter (fun q => !(a.any (fun p => p.1 == q.1)))

/-- The query string getCompanies builds for given options: the merged
`finalParams` serialised with `encodeURIComponent` on keys and values. -/
def queryStringOf (optType : Option ByteStr) (params : List (ByteStr × ByteStr)) : List Char :=
  buildQuery (jsSpreadMerge (typeParams optType) params)

/-- The `{success, message}` part of a getCompanies result (the parsed data
payload is not modelled further in this development). -/
structure QueryOutcome where
  success : Bool
  message : Option String
deriving DecidableEq

/-- `getCompanies` from STLIB.js.  The options object is split, as in the
destructuring `{ type, ...params }`, into the optional type value and the
remaining key/value pairs (values already in their string form).  The second
component is the list of requests issued, each a query string paired with
the cookie header that authenticated it. -/
def getCompanies (optType : Option ByteStr) (params : List (ByteStr × ByteStr))
    (responseCode : Nat) (s : AuthState) :
    QueryOutcome × List (List Char × String) :=
  if truthy s.cookies = false then
    ({ success := false, message := some "Not authenticated. Please log in first." }, [])
  else
    let q := queryStringOf optType params
    let ck := s.cookies.getD ""
    if responseCode = 200 then
      ({ success := true, message := none }, [(q, ck)])
    else
      ({ success := false,
         message := some ("Failed to retrieve companies: " ++ toString responseCode) }, [(q, ck)])

/-! ## Lemmas about percent-encoding and query-string splitting -/

theorem isUnreservedByte_lt {b : Nat} (h : isUnreservedByte b = true) : b < 127 := by
  simp only [isUnreservedByte, Bool.or_eq_true, Bool.and_eq_true, decide_eq_true_eq,
    beq_iff_eq] at h
  rcases h with ((((((((((h | h) | h) | h) | h) | h) | h) | h) | h) | h) | h) | h <;> omega

theorem char_ofNat_toNat : ∀ b < 127, (Char.ofNat b).toNat = b := by decide

theorem hexVal_hexDigitChar : ∀ n < 16, hexVal (hexDigitChar n) = n := by decide

theorem hexDigitChar_not_special :
    ∀ n < 16, hexDigitChar n ≠ '&' ∧ hexDigitChar n ≠ '=' := by decide

theorem isUnreservedByte_ne_special :
    ∀ b < 127, isUnreservedByte b = true → b ≠ 37 ∧ b ≠ 38 ∧ b ≠ 61 := by decide

theorem percentDecode_encodeByte {b : Nat} (hb : b < 256) (rest : List Char) :
    percentDecode (encodeByte b ++ rest) = b :: percentDecode rest := by
  by_cases hu : isUnreservedByte b = true
  · have h127 : b < 127 := isUnreservedByte_lt hu
    have htn : (Char.ofNat b).toNat = b := char_ofNat_toNat b h127
    have hne : Char.ofNat b ≠ '%' := by
      intro hc
      have hb37 : b = 37 := by rw [← htn, hc]; rfl
      exact (isUnreservedByte_ne_special b h127 hu).1 hb37
    simp [encodeByte, hu, percentDecode, hne, htn]
  · have h16a : b / 16 < 16 := by omega
    have h16b : b % 16 < 16 := by omega
    simp only [encodeByte, hu, if_false, Bool.false_eq_true, List.cons_append,
      List.nil_append]
    rw [percentDecode.eq_2]
    rw [hexVal_hexDigitChar (b / 16) h16a, hexVal_hexDigitChar (b % 16) h16b]
    congr 1
    omega

theorem percentDecode_encode {bs : ByteStr} (h : ∀ b ∈ bs, b < 256) :
    percentDecode (encodeURIComponent bs) = bs := by
  induction bs with
  | nil => rfl
  | cons b bs ih =>
      rw [encodeURIComponent, percentDecode_encodeByte (h b (by simp))]
      rw [ih (fun x hx => h x (by simp [hx]))]

theorem mem_encodeByte_ne {b : Nat} (hb : b < 256) {c : Char} (hc : c ∈ encodeByte b) :
    c ≠ '&' ∧ c ≠ '=' := by
  by_cases hu : isUnreservedByte b = true
  · have h127 : b < 127 := isUnreservedByte_lt hu
    have htn : (Char.ofNat b).toNat = b := char_ofNat_toNat b h127
    have hcc : c = Char.ofNat b := by simpa [encodeByte, hu] using hc
    subst hcc
    constructor
    · intro hx
      exact (isUnreservedByte_ne_special b h127 hu).2.1 (by rw [← htn, hx]; rfl)
    · intro hx
      exact (isUnreservedByte_ne_special b h127 hu).2.2 (by rw [← htn, hx]; rfl)
  · have h16a : b / 16 < 16 := by omega
    have h16b : b % 16 < 16 := by omega
    simp only [encodeByte, hu, if_false, Bool.false_eq_true, List.mem_cons,
      List.not_mem_nil, or_false] at hc
    rcases hc with rfl | rfl | rfl
    · exact ⟨by decide, by decide⟩
    · exact hexDigitChar_not_special (b / 16) h16a
    · exact hexDigitChar_not_special (b % 16) h16b

theorem mem_encode_ne {bs : ByteStr} (h : ∀ b ∈ bs, b < 256) {c : Char}
    (hc : c ∈ encodeURIComponent bs) : c ≠ '&' ∧ c ≠ '=' := by
  induction bs with
  | nil => simp [encodeURIComponent] at hc
  | cons b bs ih =>
      rw [encodeURIComponent, List.mem_append] at hc
      rcases hc with hc | hc
      · exact mem_encodeByte_ne (h b (by simp)) hc
      · exact ih (fun x hx => h x (by simp [hx])) hc

theorem splitSepAux_of_not_mem {sep : Char} {xs : List Char} (h : sep ∉ xs) :
    splitSepAux sep xs = (xs, []) := by
  induction xs with
  | nil => rfl
  | cons c cs ih =>
      have hc : ¬ c = sep := fun hx => h (by simp [hx])
      simp [splitSepAux, hc, ih (fun hx => h (by simp [hx]))]

theorem splitSepAux_append {sep : Char} {xs ys : List Char} (h : sep ∉ xs) :
    splitSepAux sep (xs ++ sep :: ys) =
      (xs, (splitSepAux sep ys).1 :: (splitSepAux sep ys).2) := by
  induction xs with
  | nil => simp [splitSepAux]
  | cons c cs ih =>
      have hc : ¬ c = sep := fun hx => h (by simp [hx])
      simp [splitSepAux, hc, ih (fun hx => h (by simp [hx]))]

theorem splitSep_of_not_mem {sep : Char} {xs : List Char} (h : sep ∉ xs) :
    splitSep sep xs = [xs] := by
  simp [splitSep, splitSepAux_of_not_mem h]

theorem splitSep_append {sep : Char} {xs ys : List Char} (h : sep ∉ xs) :
    splitSep sep (xs ++ sep :: ys) = xs :: splitSep sep ys := by
  simp [splitSep, splitSepAux_append h]

theorem splitSep_joinSep {sep : Char} {chunks : List (List Char)}
    (h : ∀ c ∈ chunks, sep ∉ c) (hne : chunks ≠ []) :
    splitSep sep (joinSep sep chunks) = chunks := by
  induction chunks with
  | nil => exact absurd rfl hne
  | cons x xs ih =>
      cases xs with
      | nil => exact splitSep_of_not_mem (h x (by simp))
      | cons y ys =>
          rw [joinSep, splitSep_append (h x (by simp))]
          · rw [ih (fun c hc => h c (by simp [hc])) (List.cons_ne_nil y ys)]
          · exact List.cons_ne_nil y ys

theorem joinSep_cons_ne_nil {sep : Char} {x : List Char} (hx : x ≠ [])
    (xs : List (List Char)) : joinSep sep (x :: xs) ≠ [] := by
  cases xs with
  | nil => simpa [joinSep] using hx
  | cons y ys => simp [joinSep]

theorem parsePair_enc {p : ByteStr × ByteStr}
    (h1 : ∀ b ∈ p.1, b < 256) (h2 : ∀ b ∈ p.2, b < 256) :
    parsePair (encodeURIComponent p.1 ++ '=' :: encodeURIComponent p.2) = p := by
  have hk : '=' ∉ encodeURIComponent p.1 := fun hc => (mem_encode_ne h1 hc).2 rfl
  have hv : '=' ∉ encodeURIComponent p.2 := fun hc => (mem_encode_ne h2 hc).2 rfl
  rw [parsePair, splitSep_append hk, splitSep_of_not_mem hv]
  simp [percentDecode_encode h1, percentDecode_encode h2]

/-- C8: encoding a filter map into a query string (percent-encoding each key
and value, joining pairs with = and chunks with &) and then decoding that
query string (splitting on & and =, percent-decoding) recovers exactly the
original key/value pairs, for every map whose entries are byte strings. -/
theorem queryString_roundtrip (ps : List (ByteStr × ByteStr))
    (h : ∀ p ∈ ps, (∀ b ∈ p.1, b < 256) ∧ (∀ b ∈ p.2, b < 256)) :
    qsDecode (buildQuery ps) = ps := by
  cases ps with
  | nil => rfl
  | cons p ps' =>
      have hchunk : ∀ q ∈ p :: ps',
          '&' ∉ encodeURIComponent q.1 ++ '=' :: encodeURIComponent q.2 := by
        intro q hq hc
        rcases List.mem_append.mp hc with hc | hc
        · exact (mem_encode_ne (h q hq).1 hc).1 rfl
        · rcases List.mem_cons.mp hc with hc | hc
          · exact absurd hc (by decide)
          · exact (mem_encode_ne (h q hq).2 hc).1 rfl
      have hne : buildQuery (p :: ps') ≠ [] := by
        rw [buildQuery, List.map_cons]
        exact joinSep_cons_ne_nil (by simp) _
      rw [qsDecode, if_neg hne, buildQuery]
      rw [splitSep_joinSep (fun c hc => by
            rcases List.mem_map.mp hc with ⟨q, hq, rfl⟩
            exact hchunk q hq)
          (by simp)]
      rw [List.map_map]
      refine (List.map_congr_left ?_).trans (List.map_id _)
      intro q hq
      simpa [Function.comp] using parsePair_enc (h q hq).1 (h q hq).2

/-- Concrete instance of the round-trip theorem: a key with a space and a
value consisting of the bytes of the characters ampersand, equals and
percent, alongside a plain tag pair, survive the encode/decode cycle. -/
theorem queryString_roundtrip_witness :
    (∀ p ∈ ([([97, 32, 98], [38, 61, 37]), ([116, 97, 103], [99, 44, 100])] :
        List (ByteStr × ByteStr)), (∀ b ∈ p.1, b < 256) ∧ (∀ b ∈ p.2, b < 256)) ∧
    qsDecode (buildQuery [([97, 32, 98], [38, 61, 37]), ([116, 97, 103], [99, 44, 100])]) =
      [([97, 32, 98], [38, 61, 37]), ([116, 97, 103], [99, 44, 100])] :=
  ⟨by decide, queryString_roundtrip _ (by decide)⟩

/-! ## Session-manager theorems -/

theorem truthy_some {c : String} (h : c ≠ "") : truthy (some c) = true := by
  simp [truthy, h]

/-- C2: when a credential is stored and the stored expiration is strictly
before the current time, isUserLoggedIn returns false and clears both
stored fields via logout; a second call on the resulting state also
returns false and leaves the state untouched. -/
theorem isUserLoggedIn_expired_clears (now : Rat) (code : Nat) (s : AuthState) (e : Rat)
    (hck : truthy s.cookies = true) (hexp : s.expiration = some e) (hlt : e < now) :
    (isUserLoggedIn now code s).1 = false ∧
    (isUserLoggedIn now code s).2.1.cookies = none ∧
    (isUserLoggedIn now code s).2.1.expiration = none ∧
    (isUserLoggedIn now code (isUserLoggedIn now code s).2.1).1 = false ∧
    (isUserLoggedIn now code (isUserLoggedIn now code s).2.1).2.1 =
      (isUserLoggedIn now code s).2.1 := by
  have h1 : isUserLoggedIn now code s =
      (false, (logout code s).2.1, (logout code s).2.2) := by
    simp [isUserLoggedIn, hck, hexp, hlt]
  have h2 : (logout code s).2.1.cookies = none ∧ (logout code s).2.1.expiration = none := by
    simp [logout, hck, _deleteExistingTriggers]
  refine ⟨by rw [h1], by rw [h1]; exact h2.1, by rw [h1]; exact h2.2, ?_, ?_⟩ <;>
    rw [h1] <;> simp [isUserLoggedIn, truthy, h2.1]

/-- Instance of the expiration theorem at a concrete expired state. -/
theorem isUserLoggedIn_expired_clears_witness :
    truthy (AuthState.mk (some "c") (some 0) []).cookies = true ∧
    (AuthState.mk (some "c") (some 0) []).expiration = some 0 ∧ (0 : Rat) < 1 ∧
    (isUserLoggedIn 1 204 (AuthState.mk (some "c") (some 0) [])).1 = false ∧
    (isUserLoggedIn 1 204 (AuthState.mk (some "c") (some 0) [])).2.1.cookies = none :=
  ⟨by decide, rfl, by norm_num,
    (isUserLoggedIn_expired_clears 1 204 _ 0 (by decide) rfl (by norm_num)).1,
    (isUserLoggedIn_expired_clears 1 204 _ 0 (by decide) rfl (by norm_num)).2.1⟩

/-- C3: logout on a state with a stored credential deletes both stored
fields and cancels the session-check trigger registration for every remote
status code, and reports failure when the status is not 204. -/
theorem logout_always_clears (code : Nat) (s : AuthState) (hck : truthy s.cookies = true) :
    (logout code s).2.1.cookies = none ∧
    (logout code s).2.1.expiration = none ∧
    hasSessionCheckTrigger (logout code s).2.1 = false ∧
    (code ≠ 204 → (logout code s).1 = "Logout failed") := by
  refine ⟨?_, ?_, ?_, ?_⟩
  · simp [logout, hck, _deleteExistingTriggers]
  · simp [logout, hck, _deleteExistingTriggers]
  · simp only [logout, hck, if_true, _deleteExistingTriggers, hasSessionCheckTrigger]
    rw [List.any_eq_false]
    intro t ht
    rcases List.mem_filter.mp ht with ⟨_, hne⟩
    simpa using hne
  · intro hc
    simp [logout, hck, hc]

/-- Instance of the logout theorem: a failing remote call (status 500)
still clears the store and the trigger. -/
theorem logout_always_clears_witness :
    truthy (AuthState.mk (some "c") (some 0)
      [Trigger.mk "librarySessionCheckTrigger" 60]).cookies = true ∧
    (logout 500 (AuthState.mk (some "c") (some 0)
      [Trigger.mk "librarySessionCheckTrigger" 60])).2.1.cookies = none ∧
    (logout 500 (AuthState.mk (some "c") (some 0)
      [Trigger.mk "librarySessionCheckTrigger" 60])).1 = "Logout failed" :=
  ⟨by decide,
    (logout_always_clears 500 _ (by decide)).1,
    (logout_always_clears 500 _ (by decide)).2.2.2 (by decide)⟩

/-- C4: login with minutes and a timeout outside the allowed set, or with
hours and a timeout that is not a positive integer, throws a validation
error before any fetch and without mutating stored state. -/
theorem login_invalid_throws (t : Rat) (unit : String) (now : Rat) (code : Nat)
    (ck : String) (s : AuthState)
    (h : (unit = "minutes" ∧ t ∉ allowedMinuteIntervals) ∨
         (unit = "hours" ∧ ¬ (jsIsInteger t ∧ 1 ≤ t))) :
    (login t unit now code ck s).1.isThrown = true ∧
    (login t unit now code ck s).2.1 = s ∧
    (login t unit now code ck s).2.2 = 0 := by
  rcases h with ⟨hu, hmem⟩ | ⟨hu, hbad⟩ <;> subst hu
  · simp [login, hmem, LoginOutcome.isThrown]
  · have hcond : ¬ jsIsInteger t ∨ t < 1 := by
      rcases not_and_or.mp hbad with h1 | h2
      · exact Or.inl h1
      · exact Or.inr (not_le.mp h2)
    simp [login, hcond, LoginOutcome.isThrown]

/-- Instance of the validation theorem: 7 minutes is rejected with no
fetch and no state change. -/
theorem login_invalid_throws_witness :
    ((7 : Rat) ∉ allowedMinuteIntervals) ∧
    (login 7 "minutes" 0 200 "c" (AuthState.mk none none [])).1.isThrown = true ∧
    (login 7 "minutes" 0 200 "c" (AuthState.mk none none [])).2.1 =
      AuthState.mk none none [] ∧
    (login 7 "minutes" 0 200 "c" (AuthState.mk none none [])).2.2 = 0 :=
  ⟨by decide,
    (login_invalid_throws 7 "minutes" 0 200 "c" _ (Or.inl ⟨rfl, by decide⟩)).1,
    (login_invalid_throws 7 "minutes" 0 200 "c" _ (Or.inl ⟨rfl, by decide⟩)).2.1,
    (login_invalid_throws 7 "minutes" 0 200 "c" _ (Or.inl ⟨rfl, by decide⟩)).2.2⟩

/-- C5: a login that passes validation but receives a non-200 status
returns the failure object after exactly one fetch and leaves the state
(untouched credential, expiration and triggers) exactly as before. -/
theorem login_non200_no_mutation (t : Rat) (unit : String) (now : Rat) (code : Nat)
    (ck : String) (s : AuthState)
    (hvalid : validTimeoutPair t unit) (hcode : code ≠ 200) :
    login t unit now code ck s =
      (LoginOutcome.returned false (some "Invalid login credentials"), s, 1) := by
  rcases hvalid with ⟨hu, hint, hge⟩ | ⟨hu, hmem⟩ <;> subst hu
  · have hcond : ¬ (¬ jsIsInteger t ∨ t < 1) := by
      push_neg
      exact ⟨hint, hge⟩
    simp [login, hcond, loginAfterValidation, hcode]
  · simp [login, hmem, loginAfterValidation, hcode]

/-- Instance of the non-200 login theorem at status 401. -/
theorem login_non200_no_mutation_witness :
    validTimeoutPair 1 "hours" ∧ (401 : Nat) ≠ 200 ∧
    login 1 "hours" 0 401 "c" (AuthState.mk none none []) =
      (LoginOutcome.returned false (some "Invalid login credentials"),
        AuthState.mk none none [], 1) :=
  ⟨Or.inl ⟨rfl, by decide, by norm_num⟩, by decide,
    login_non200_no_mutation 1 "hours" 0 401 "c" _
      (Or.inl ⟨rfl, by decide, by norm_num⟩) (by decide)⟩

/-- C6: getCompanies with no stored credential returns the
authentication-required failure for every options argument and issues no
request. -/
theorem getCompanies_requires_auth (optType : Option ByteStr)
    (params : List (ByteStr × ByteStr)) (code : Nat) (s : AuthState)
    (h : truthy s.cookies = false) :
    getCompanies optType params code s =
      ({ success := false, message := some "Not authenticated. Please log in first." },
        []) := by
  simp [getCompanies, h]

/-- Instance of the auth-required theorem on the empty store. -/
theorem getCompanies_requires_auth_witness :
    truthy (AuthState.mk none none []).cookies = false ∧
    getCompanies (some (asciiBytes "vendor")) [(asciiBytes "state", asciiBytes "ca")]
        200 (AuthState.mk none none []) =
      ({ success := false, message := some "Not authenticated. Please log in first." },
        []) :=
  ⟨by decide, getCompanies_requires_auth _ _ 200 _ (by decide)⟩

/-- C1: for every valid (timeoutLength, unit) pair, a login that returns
success true stores an expiration strictly in the future of the login
instant, and an immediately following isUserLoggedIn at that same instant
returns true. -/
theorem login_success_isLoggedIn (t : Rat) (unit : String) (now : Rat) (code : Nat)
    (ck : String) (s : AuthState)
    (hvalid : validTimeoutPair t unit) (hck : ck ≠ "")
    (hsucc : (login t unit now code ck s).1 = LoginOutcome.returned true none) :
    (login t unit now code ck s).2.1.expiration = some (sessionExpirationAt t unit now) ∧
    now < sessionExpirationAt t unit now ∧
    (isUserLoggedIn now 204 (login t unit now code ck s).2.1).1 = true := by
  rcases hvalid with ⟨hu, hint, hge⟩ | ⟨hu, hmem⟩ <;> subst hu
  · have hcond : ¬ (¬ jsIsInteger t ∨ t < 1) := by
      push_neg
      exact ⟨hint, hge⟩
    have hlog : login t "hours" now code ck s =
        loginAfterValidation t "hours" now code ck s := by
      simp [login, hcond]
    by_cases hc : code = 200
    · subst hc
      have hfin : login t "hours" now 200 ck s =
          (LoginOutcome.returned true none,
            _createSessionCheckTrigger t "hours"
              (AuthState.mk (some ck) (some (sessionExpirationAt t "hours" now))
                s.triggers), 1) := by
        rw [hlog]
        simp [loginAfterValidation, _setSessionTimeout, sessionExpirationAt]
      have hlt : now < sessionExpirationAt t "hours" now := by
        have hexp : sessionExpirationAt t "hours" now = now + t * 60 * 60000 := by
          simp [sessionExpirationAt, msPerMinute]
        rw [hexp]
        linarith
      have hnot : ¬ (sessionExpirationAt t "hours" now < now) := not_lt.mpr (le_of_lt hlt)
      refine ⟨?_, hlt, ?_⟩
      · rw [hfin]
        simp [_createSessionCheckTrigger, _deleteExistingTriggers]
      · rw [hfin]
        simp [isUserLoggedIn, _createSessionCheckTrigger, _deleteExistingTriggers,
          truthy_some hck, hnot]
    · rw [hlog] at hsucc
      simp [loginAfterValidation, hc] at hsucc
  · have hpos : (0 : Rat) < t := by
      simp [allowedMinuteIntervals] at hmem
      rcases hmem with rfl | rfl | rfl | rfl | rfl <;> norm_num
    have hlog : login t "minutes" now code ck s =
        loginAfterValidation t "minutes" now code ck s := by
      simp [login, hmem]
    by_cases hc : code = 200
    · subst hc
      have hfin : login t "minutes" now 200 ck s =
          (LoginOutcome.returned true none,
            _createSessionCheckTrigger t "minutes"
              (AuthState.mk (some ck) (some (sessionExpirationAt t "minutes" now))
                s.triggers), 1) := by
        rw [hlog]
        simp [loginAfterValidation, _setSessionTimeout, sessionExpirationAt]
      have hlt : now < sessionExpirationAt t "minutes" now := by
        have hexp : sessionExpirationAt t "minutes" now = now + t * 60000 := by
          simp [sessionExpirationAt, msPerMinute]
        rw [hexp]
        linarith
      have hnot : ¬ (sessionExpirationAt t "minutes" now < now) := not_lt.mpr (le_of_lt hlt)
      refine ⟨?_, hlt, ?_⟩
      · rw [hfin]
        simp [_createSessionCheckTrigger, _deleteExistingTriggers]
      · rw [hfin]
        simp [isUserLoggedIn, _createSessionCheckTrigger, _deleteExistingTriggers,
          truthy_some hck, hnot]
    · rw [hlog] at hsucc
      simp [loginAfterValidation, hc] at hsucc

/-- Instance of the login/isUserLoggedIn theorem: a 1-hour login at time 0
stores expiration 3600000 ms and is immediately logged in. -/
theorem login_success_isLoggedIn_witness :
    validTimeoutPair 1 "hours" ∧ ("c" : String) ≠ "" ∧
    (login 1 "hours" 0 200 "c" (AuthState.mk none none [])).1 =
      LoginOutcome.returned true none ∧
    (login 1 "hours" 0 200 "c" (AuthState.mk none none [])).2.1.expiration =
      some (sessionExpirationAt 1 "hours" 0) ∧
    (0 : Rat) < sessionExpirationAt 1 "hours" 0 ∧
    (isUserLoggedIn 0 204
      (login 1 "hours" 0 200 "c" (AuthState.mk none none [])).2.1).1 = true :=
  ⟨Or.inl ⟨rfl, by decide, by norm_num⟩, by decide, by decide,
    (login_success_isLoggedIn 1 "hours" 0 200 "c" (AuthState.mk none none [])
      (Or.inl ⟨rfl, by decide, by norm_num⟩) (by decide) (by decide)).1,
    (login_success_isLoggedIn 1 "hours" 0 200 "c" (AuthState.mk none none [])
      (Or.inl ⟨rfl, by decide, by norm_num⟩) (by decide) (by decide)).2.1,
    (login_success_isLoggedIn 1 "hours" 0 200 "c" (AuthState.mk none none [])
      (Or.inl ⟨rfl, by decide, by norm_num⟩) (by decide) (by decide)).2.2⟩

theorem failed_msg_ne_auth (msg : String) :
    "Failed to retrieve companies: " ++ msg ≠ "Not authenticated. Please log in first." := by
  intro h
  have hd := congrArg String.data h
  rw [String.data_append] at hd
  have e1 : ("Failed to retrieve companies: ").data =
      'F' :: ("ailed to retrieve companies: ").data := rfl
  have e2 : ("Not authenticated. Please log in first.").data =
      'N' :: ("ot authenticated. Please log in first.").data := rfl
  rw [e1, e2, List.cons_append] at hd
  injection hd with h1 _
  exact absurd h1 (by decide)

/-- C10: with a stored (truthy) credential, getCompanies never fails the
authentication precondition even when the stored expiration is already in
the past: it issues exactly one request, authenticated with the stale
credential, and its result is never the authentication-required failure. -/
theorem getCompanies_ignores_expiration (optType : Option ByteStr)
    (params : List (ByteStr × ByteStr)) (code : Nat) (s : AuthState) (c : String)
    (e now : Rat) (h1 : s.cookies = some c) (h2 : c ≠ "")
    (h3 : s.expiration = some e) (h4 : e < now) :
    (getCompanies optType params code s).2 = [(queryStringOf optType params, c)] ∧
    (getCompanies optType params code s).1.message ≠
      some "Not authenticated. Please log in first." := by
  have htr : truthy s.cookies = true := by
    rw [h1]
    exact truthy_some h2
  have hget : s.cookies.getD "" = c := by rw [h1]; rfl
  constructor
  · by_cases hc : code = 200 <;> simp [getCompanies, htr, hc, hget]
  · by_cases hc : code = 200
    · simp [getCompanies, htr, hc]
    · simp [getCompanies, htr, hc]
      exact failed_msg_ne_auth _

/-- Instance of the stale-credential theorem: with cookies "c" and an
expiration of 0 at time 1, getCompanies still issues its request. -/
theorem getCompanies_ignores_expiration_witness :
    (AuthState.mk (some "c") (some 0) []).cookies = some "c" ∧ ("c" : String) ≠ "" ∧
    (AuthState.mk (some "c") (some 0) []).expiration = some 0 ∧ (0 : Rat) < 1 ∧
    (getCompanies none [(asciiBytes "state", asciiBytes "ca")] 500
        (AuthState.mk (some "c") (some 0) [])).2 =
      [(queryStringOf none [(asciiBytes "state", asciiBytes "ca")], "c")] :=
  ⟨rfl, by decide, rfl, by norm_num,
    (getCompanies_ignores_expiration none [(asciiBytes "state", asciiBytes "ca")] 500
      (AuthState.mk (some "c") (some 0) []) "c" 0 1 rfl (by decide) rfl (by norm_num)).1⟩

/-- C7: the query string built for options with type vendor and state ca is
exactly isVendor=true&state=ca (analogously for the other three company
types), it decodes to the isVendor/state pairs with case preserved, and it
carries no type key at all. -/
theorem getCompanies_type_flag_query :
    queryStringOf (some (asciiBytes "vendor")) [(asciiBytes "state", asciiBytes "ca")] =
      "isVendor=true&state=ca".data ∧
    queryStringOf (some (asciiBytes "customer")) [(asciiBytes "state", asciiBytes "ca")] =
      "isCustomer=true&state=ca".data ∧
    queryStringOf (some (asciiBytes "contractor")) [(asciiBytes "state", asciiBytes "ca")] =
      "isContractor=true&state=ca".data ∧
    queryStringOf (some (asciiBytes "contractee")) [(asciiBytes "state", asciiBytes "ca")] =
      "isContractee=true&state=ca".data ∧
    qsDecode (queryStringOf (some (asciiBytes "vendor"))
        [(asciiBytes "state", asciiBytes "ca")]) =
      [(asciiBytes "isVendor", asciiBytes "true"), (asciiBytes "state", asciiBytes "ca")] ∧
    asciiBytes "type" ∉
      (qsDecode (queryStringOf (some (asciiBytes "vendor"))
        [(asciiBytes "state", asciiBytes "ca")])).map Prod.fst := by
  refine ⟨by decide, by decide, by decide, by decide, by decide, by decide⟩

/-- C9 (code behavior at the failing input): for options that omit the
status key, the built query string contains no status pair at all, instead
of carrying the documented default status=active. -/
theorem getCompanies_omits_default_status :
    queryStringOf (some (asciiBytes "vendor")) [(asciiBytes "state", asciiBytes "ca")] =
      "isVendor=true&state=ca".data ∧
    asciiBytes "status" ∉
      (qsDecode (queryStringOf (some (asciiBytes "vendor"))
        [(asciiBytes "state", asciiBytes "ca")])).map Prod.fst ∧
    asciiBytes "status" ∉ (qsDecode (queryStringOf none [])).map Prod.fst := by
  refine ⟨by decide, by decide, by decide⟩

end STLIB
